import Mathlib

/-!
Shallow embedding of wrapspawner/wrapspawner.py.

The source defines two classes: WrapSpawner, which lazily constructs and
proxies a wrapped child Spawner, and ProfilesSpawner, which selects the
child class and config from a catalog of profiles.

Modelling choices, each justified by the source:
* Python dict objects are mutable and passed by reference; assignments such
  as self.child_config = p[4] in select_profile alias objects.  We therefore
  model a heap of dict objects: a dict reference is a Nat index into a list
  of association lists.  All dict mutation (dict.update) goes through the
  heap; dict literals allocate fresh cells.
* A Spawner class object (child_class, a traitlets Type value) is opaque to
  this file: it is identified by a name (ClassId).
* The wrapped child Spawner instance is an external collaborator.  We model
  the generic Spawner state contract the source relies on: clear_state
  empties its serialized state, load_state d replaces it by d, get_state
  returns it.  Instance identity is a Nat id assigned at construction.
  The state the fresh instance initially sees (the source comment: initial
  state will always be wrong since it will see our state) is a parameter
  initSt of the constructing operations.
* Calls into the child (clear_state / load_state / construction / trait
  linking) are recorded in an event trace, so that claims about which calls
  happen, and in which order, are statable.
* The Orchestrator-owned base-class fields (Spawner.load_state /
  Spawner.get_state / Spawner.clear_state of jupyterhub, and the
  user/db/hub/authenticator/oauth_client_id/server constructor arguments)
  are external to this repository and carry none of the fields the claims
  mention; the base get_state is modelled as the empty mapping and the base
  load_state / clear_state as having no effect on the modelled fields.
* The directional_link trait wiring uses trait machinery of external
  classes; it mutates no modelled field and is recorded as a trace event.
-/

namespace Wrap

/-- Keys of Python dicts in this model. -/
abbrev Key := String

/-- Values stored in dicts: ints, strings, or references to heap dicts. -/
inductive Val where
  | int : Int → Val
  | str : String → Val
  | ref : Nat → Val
  deriving DecidableEq, Repr

/-- Contents of one Python dict object: an association list in insertion
order, keys unique (Python dicts cannot repeat a key). -/
abbrev DictC := List (Key × Val)

/-- d.get(k) / d[k]: first binding of k, if any. -/
def dictGet (d : DictC) (k : Key) : Option Val :=
  (d.find? (fun kv => kv.1 == k)).map (fun kv => kv.2)

/-- d[k] = v: replace the binding of k if present, else append. -/
def dictSet (d : DictC) (k : Key) (v : Val) : DictC :=
  if d.any (fun kv => kv.1 == k) then
    d.map (fun kv => if kv.1 == k then (k, v) else kv)
  else d ++ [(k, v)]

/-- d.update(src): fold the bindings of src into d. -/
def dictUpdate (d src : DictC) : DictC :=
  src.foldl (fun acc kv => dictSet acc kv.1 kv.2) d

/-- The heap of Python dict objects; a reference is an index. -/
abbrev Heap := List DictC

/-- Dereference (out-of-range reads give the empty dict; well-formed states
keep every stored reference in range). -/
def heapRead (h : Heap) (r : Nat) : DictC := h.getD r []

/-- In-place mutation of the dict object behind reference r. -/
def heapWrite (h : Heap) (r : Nat) (d : DictC) : Heap := h.set r d

/-- Allocate a fresh dict object, returning the new heap and its reference. -/
def heapAlloc (h : Heap) (d : DictC) : Heap × Nat := (h ++ [d], h.length)

/-- An opaque reference to a Spawner class (a Python type object), e.g.
LocalProcessSpawner; identified by its name. -/
abbrev ClassId := String

/-- The wrapped child Spawner instance (external collaborator).  kwargs are
the **self.child_config keyword arguments captured at construction; st is
its own serialized state under the generic Spawner state contract. -/
structure Child where
  id : Nat
  cls : ClassId
  kwargs : DictC
  st : DictC
  deriving DecidableEq, Repr

/-- Generic Spawner contract: clear_state empties the serialized state. -/
def Child.clear_state (c : Child) : Child := { c with st := [] }

/-- Generic Spawner contract: load_state replaces the serialized state. -/
def Child.load_state (c : Child) (d : DictC) : Child := { c with st := d }

/-- Generic Spawner contract: get_state returns the serialized state. -/
def Child.get_state (c : Child) : DictC := c.st

/-- One entry of ProfilesSpawner.profiles: tuple of display name, unique
key, description, Spawner class, and a reference to the config dict object
(the tuple holds the dict by reference, as in Python). -/
structure Profile where
  display : String
  key : String
  description : String
  cls : ClassId
  configR : Nat
  deriving DecidableEq, Repr

/-- The mutable state of a ProfilesSpawner instance (which is also a
WrapSpawner: the WrapSpawner operations read and write the same fields).
child_configR / child_stateR are references to the dict objects currently
bound to the child_config / child_state traits.  nextChildId feeds fresh
instance identities. -/
structure PState where
  heap : Heap
  profiles : List Profile
  child_class : ClassId
  child_configR : Nat
  child_stateR : Nat
  child_spawner : Option Child
  child_profile : String
  user_options : DictC
  nextChildId : Nat
  deriving DecidableEq, Repr

/-- Trace events: calls made into the child instance. -/
inductive Ev where
  | newChild : ClassId → Nat → Ev
  | childClear : Nat → Ev
  | childLoad : Nat → DictC → Ev
  | linkTraits : Nat → Ev
  deriving DecidableEq, Repr

/-- WrapSpawner.construct_child.  If no child exists, builds one from
child_class with **child_config, calls its clear_state, then its
load_state(child_state) when child_state is truthy (non-empty), then links
common traits; returns self.child_spawner.  If a child exists, returns it
unchanged.  Result: (new state, trace of child calls, returned value). -/
def WrapSpawner.construct_child (s : PState) (initSt : DictC) :
    PState × List Ev × Option Child :=
  match s.child_spawner with
  | some c => (s, [], some c)
  | none =>
    let cs := heapRead s.heap s.child_stateR
    let c0 : Child :=
      { id := s.nextChildId, cls := s.child_class,
        kwargs := heapRead s.heap s.child_configR, st := initSt }
    let c1 := Child.clear_state c0
    let c2 := if cs.isEmpty then c1 else Child.load_state c1 cs
    let evs := [Ev.newChild s.child_class c0.id, Ev.childClear c0.id]
      ++ (if cs.isEmpty then [] else [Ev.childLoad c0.id cs])
      ++ [Ev.linkTraits c0.id]
    ({ s with child_spawner := some c2, nextChildId := s.nextChildId + 1 },
     evs, some c2)

/-- ProfilesSpawner.select_profile: linear search of the catalog for the
first entry whose key equals profile; on a match set child_class and
child_config (by reference) from it, on no match do nothing. -/
def ProfilesSpawner.select_profile (s : PState) (profile : String) : PState :=
  match s.profiles.find? (fun p => p.key == profile) with
  | some p => { s with child_class := p.cls, child_configR := p.configR }
  | none => s

/-- self.user_options.get("profile", ""): the submitted profile string, or
the empty string when absent (user_options stores a string there, put by
options_from_form). -/
def getProfileOpt (d : DictC) : String :=
  match dictGet d "profile" with
  | some (Val.str t) => t
  | _ => ""

/-- ProfilesSpawner.construct_child: set child_profile from user_options,
select that profile, then delegate to WrapSpawner.construct_child.  The
Python method has no return statement, so it returns None (modelled as the
third component being none). -/
def ProfilesSpawner.construct_child (s : PState) (initSt : DictC) :
    PState × List Ev × Option Child :=
  let s1 := { s with child_profile := getProfileOpt s.user_options }
  let s2 := ProfilesSpawner.select_profile s1 s1.child_profile
  let r := WrapSpawner.construct_child s2 initSt
  (r.1, r.2.1, none)

/-- ProfilesSpawner.load_child_class: child_profile := state["profile"],
with the KeyError handler giving the empty string; then select_profile. -/
def ProfilesSpawner.load_child_class (s : PState) (state : DictC) : PState :=
  let s1 := { s with child_profile := getProfileOpt state }
  ProfilesSpawner.select_profile s1 s1.child_profile

/-- WrapSpawner.load_state as executed on a ProfilesSpawner instance (the
self.load_child_class and self.construct_child calls dispatch to the
ProfilesSpawner overrides): base load_state (external, no modelled effect),
load_child_class, child_config.update(state.get("child_conf", {})) which
mutates the dict object currently behind child_config in place,
child_state := state.get("child_state", {}), then construct_child. -/
def ProfilesSpawner.load_state (s : PState) (state : DictC) (initSt : DictC) :
    PState × List Ev :=
  let s1 := ProfilesSpawner.load_child_class s state
  let conf : DictC :=
    match dictGet state "child_conf" with
    | some (Val.ref r) => heapRead s1.heap r
    | _ => []
  let h2 := heapWrite s1.heap s1.child_configR
    (dictUpdate (heapRead s1.heap s1.child_configR) conf)
  let s2 := { s1 with heap := h2 }
  let s3 :=
    match dictGet state "child_state" with
    | some (Val.ref r) => { s2 with child_stateR := r }
    | _ =>
      let a := heapAlloc s2.heap []
      { s2 with heap := a.1, child_stateR := a.2 }
  let r := ProfilesSpawner.construct_child s3 initSt
  (r.1, r.2.1)

/-- WrapSpawner.get_state: state := base get_state (modelled empty), then
state["child_conf"] := child_config (by reference); if a child exists,
child_state and state["child_state"] are both set to the freshly captured
child.get_state() mapping (one new dict object). -/
def WrapSpawner.get_state (s : PState) : PState × DictC :=
  let st1 := dictSet [] "child_conf" (Val.ref s.child_configR)
  match s.child_spawner with
  | some c =>
    let a := heapAlloc s.heap (Child.get_state c)
    ({ s with heap := a.1, child_stateR := a.2 },
     dictSet st1 "child_state" (Val.ref a.2))
  | none => (s, st1)

/-- ProfilesSpawner.get_state: the WrapSpawner state mapping plus
state["profile"] := child_profile. -/
def ProfilesSpawner.get_state (s : PState) : PState × DictC :=
  let r := WrapSpawner.get_state s
  (r.1, dictSet r.2 "profile" (Val.str s.child_profile))

/-- WrapSpawner.clear_state: base clear_state (external fields only), then
child.clear_state() if a child exists, then child_state := {} and
child_config := {} (two fresh empty dict objects) and child_spawner :=
None. -/
def WrapSpawner.clear_state (s : PState) : PState × List Ev :=
  let r : PState × List Ev :=
    match s.child_spawner with
    | some c =>
      ({ s with child_spawner := some (Child.clear_state c) },
       [Ev.childClear c.id])
    | none => (s, [])
  let a1 := heapAlloc r.1.heap []
  let a2 := heapAlloc a1.1 []
  ({ r.1 with
      heap := a2.1, child_stateR := a1.2, child_configR := a2.2,
      child_spawner := none }, r.2)

/-- ProfilesSpawner.clear_state: WrapSpawner.clear_state then
child_profile := "". -/
def ProfilesSpawner.clear_state (s : PState) : PState × List Ev :=
  let r := WrapSpawner.clear_state s
  ({ r.1 with child_profile := "" }, r.2)

/-- Result of the proxied lifecycle calls: either a dummy already-completed
Future carrying a value (built by yield-val), or the wrapped child's own
Future passed back unchanged (identified by the child id). -/
inductive LifecycleResult where
  | completed : Option Int → LifecycleResult
  | forwarded : Nat → LifecycleResult
  deriving DecidableEq, Repr

/-- The source utility that wraps a value in an already-resolved Future. -/
def yieldVal (x : Option Int) : LifecycleResult := LifecycleResult.completed x

/-- WrapSpawner.poll: forward to the child if one exists, else return a
dummy Future resolved with 1. -/
def WrapSpawner.poll (s : PState) : LifecycleResult :=
  match s.child_spawner with
  | some c => LifecycleResult.forwarded c.id
  | none => yieldVal (some 1)

/-- WrapSpawner.stop: forward to the child if one exists, else return a
dummy Future resolved with None. -/
def WrapSpawner.stop (s : PState) : LifecycleResult :=
  match s.child_spawner with
  | some c => LifecycleResult.forwarded c.id
  | none => yieldVal none

/-- Result of reading the progress property: the child's progress stream
(identified by the child id) or a raised RuntimeError. -/
inductive ProgressResult where
  | stream : Nat → ProgressResult
  | raised : String → ProgressResult
  deriving DecidableEq, Repr

/-- WrapSpawner.progress (defined when the base Spawner has a progress
attribute, which modern jupyterhub does): forward the child's progress
stream unchanged, or raise RuntimeError when no child exists. -/
def WrapSpawner.progress (s : PState) : ProgressResult :=
  match s.child_spawner with
  | some c => ProgressResult.stream c.id
  | none =>
    ProgressResult.raised
      "No child spawner yet exists - can not get progress yet"

/-- ProfilesSpawner.options_from_form: formdata maps field names to lists
of submitted values; the result is dict(profile=formdata.get("profile",
[self.profiles[0][1]])[0]).  The default argument self.profiles[0][1] is
evaluated before the get, so an empty catalog raises IndexError; indexing
[0] raises IndexError on an empty value list.  A raised error is none. -/
def ProfilesSpawner.options_from_form (s : PState)
    (formdata : List (Key × List String)) : Option (List (Key × String)) :=
  match s.profiles with
  | [] => none
  | p0 :: _ =>
    match ((formdata.find? (fun kv => kv.1 == "profile")).map
        (fun kv => kv.2)).getD [p0.key] with
    | [] => none
    | v :: _ => some [("profile", v)]

/-- Well-formedness of a supervisor state: the dict references held by the
state and the catalog are in range, and every dict object has unique keys
(as every Python dict does). -/
def WF (s : PState) : Prop :=
  s.child_configR < s.heap.length ∧
  s.child_stateR < s.heap.length ∧
  (∀ d ∈ s.heap, (d.map Prod.fst).Nodup) ∧
  (∀ p ∈ s.profiles, p.configR < s.heap.length)

instance (s : PState) : Decidable (WF s) := by
  unfold WF
  infer_instance

/-- The catalog entry of the sample state ex0 below: key "local", config
dict at heap cell 2. -/
def exP : Profile :=
  { display := "Local Notebook Server", key := "local",
    description := "local test notebook", cls := "LocalProcessSpawner",
    configR := 2 }

/-- A concrete supervisor state for instantiating theorems: the catalog is
[exP] (config dict with start_timeout 15 and http_timeout 10 at heap cell
2), a fresh empty child_config dict at cell 0 and child_state dict at cell
1, no child yet, and a submitted user option choosing "local". -/
def ex0 : PState :=
  { heap := [[], [], [("start_timeout", Val.int 15),
      ("http_timeout", Val.int 10)]]
    profiles := [exP]
    child_class := "LocalProcessSpawner"
    child_configR := 0
    child_stateR := 1
    child_spawner := none
    child_profile := ""
    user_options := [("profile", Val.str "local")]
    nextChildId := 0 }

/-- ex0 after ProfilesSpawner.construct_child: holds a constructed child. -/
def exC : PState := (ProfilesSpawner.construct_child ex0 []).1

/-- The child instance held by exC: built from the selected profile, so its
keyword arguments are the profile config dict contents. -/
def exChild : Child :=
  { id := 0, cls := "LocalProcessSpawner",
    kwargs := [("start_timeout", Val.int 15), ("http_timeout", Val.int 10)],
    st := [] }

/-- The catalog entry of the counterexample state exCat below: key "local",
config dict at heap cell 0. -/
def exCatP : Profile :=
  { display := "Local", key := "local", description := "d",
    cls := "LocalProcessSpawner", configR := 0 }

/-- A concrete supervisor state for the catalog-mutation counterexample:
the catalog profile "local" has its config dict at heap cell 0 with
contents a = 1; the supervisor's current child_config is the dict at cell
1 with contents b = 2; cell 2 is the empty child_state dict. -/
def exCat : PState :=
  { heap := [[("a", Val.int 1)], [("b", Val.int 2)], []]
    profiles := [exCatP]
    child_class := "LocalProcessSpawner"
    child_configR := 1
    child_stateR := 2
    child_spawner := none
    child_profile := ""
    user_options := []
    nextChildId := 0 }

/-- A persisted state mapping fed to load_state in the counterexample: the
profile key "local" and a child_conf dict (heap cell 1, contents b = 2)
that is a different dict object from the catalog entry dict.  This is what
a restart produces: the orchestrator re-materializes the persisted mapping
from its database into fresh dict objects, while the in-memory catalog
entry may carry different contents. -/
def exCatSt : DictC := [("profile", Val.str "local"), ("child_conf", Val.ref 1)]

/-- The round-trip scenario of C1: construct the child from the submitted
user options, then feed the supervisor its own get_state mapping through
load_state; the pair is (supervisor after construction, supervisor after
the reload). -/
def roundTrip (s0 : PState) (i1 i2 : DictC) : PState × PState :=
  let s := (ProfilesSpawner.construct_child s0 i1).1
  let g := ProfilesSpawner.get_state s
  (s, (ProfilesSpawner.load_state g.1 g.2 i2).1)

end Wrap

namespace Wrap

/-! Helper lemmas about the dict and heap model. -/

theorem heapRead_append (h : Heap) (x : DictC) (r : Nat) (hr : r < h.length) :
    heapRead (h ++ [x]) r = heapRead h r := by
  simp [heapRead, List.getD, List.getElem?_append, hr]

theorem heapRead_write_self (h : Heap) (r : Nat) (d : DictC)
    (hr : r < h.length) : heapRead (heapWrite h r d) r = d := by
  simp [heapRead, heapWrite, List.getD, List.getElem?_set_self, hr]

theorem heapRead_mem (h : Heap) (r : Nat) (hr : r < h.length) :
    heapRead h r ∈ h := by
  rw [heapRead, List.getD, List.get?_eq_getElem?, List.getElem?_eq_getElem hr]
  exact List.getElem_mem hr

theorem map_replace_not_mem (l : DictC) (k : Key) (v : Val)
    (h : ∀ kv ∈ l, (kv.1 == k) = false) :
    l.map (fun kv => if kv.1 == k then (k, v) else kv) = l :=
  calc l.map (fun kv => if kv.1 == k then (k, v) else kv)
      = l.map id := List.map_congr_left (fun kv hkv => by rw [h kv hkv]; rfl)
    _ = l := List.map_id l

theorem map_replace_of_mem (d : DictC) (k : Key) (v : Val)
    (hn : (d.map Prod.fst).Nodup) (hm : (k, v) ∈ d) :
    d.map (fun kv => if kv.1 == k then (k, v) else kv) = d := by
  induction d with
  | nil => cases hm
  | cons a l ih =>
    simp only [List.map_cons, List.nodup_cons] at hn
    rcases List.mem_cons.mp hm with h | h
    · subst h
      have hnk : ∀ kv ∈ l, (kv.1 == k) = false := by
        intro kv hkv
        by_contra hc
        simp only [Bool.not_eq_false, beq_iff_eq] at hc
        exact hn.1 (hc ▸ List.mem_map.mpr ⟨kv, hkv, rfl⟩)
      rw [List.map_cons, map_replace_not_mem l k v hnk]
      simp
    · have hne : (a.1 == k) = false := by
        by_contra hc
        simp only [Bool.not_eq_false, beq_iff_eq] at hc
        exact hn.1 (hc ▸ List.mem_map.mpr ⟨(k, v), h, rfl⟩)
      rw [List.map_cons, ih hn.2 h]
      simp [hne]

theorem dictSet_of_mem (d : DictC) (k : Key) (v : Val)
    (hn : (d.map Prod.fst).Nodup) (hm : (k, v) ∈ d) : dictSet d k v = d := by
  have hany : d.any (fun kv => kv.1 == k) = true :=
    List.any_eq_true.mpr ⟨(k, v), hm, by simp⟩
  rw [dictSet, if_pos hany]
  exact map_replace_of_mem d k v hn hm

theorem dictUpdate_of_sub (d : DictC) (hn : (d.map Prod.fst).Nodup) :
    ∀ src : DictC, (∀ kv ∈ src, kv ∈ d) → dictUpdate d src = d := by
  intro src
  induction src with
  | nil => intro _; rfl
  | cons kv src ih =>
    intro hsub
    have h1 : dictSet d kv.1 kv.2 = d :=
      dictSet_of_mem d kv.1 kv.2 hn (hsub kv (List.mem_cons_self kv src))
    show dictUpdate (dictSet d kv.1 kv.2) src = d
    rw [h1]
    exact ih (fun x hx => hsub x (List.mem_cons_of_mem kv hx))

theorem dictUpdate_self (d : DictC) (hn : (d.map Prod.fst).Nodup) :
    dictUpdate d d = d :=
  dictUpdate_of_sub d hn d (fun _ hx => hx)

/-- With unique catalog keys, the linear search of select_profile finds
exactly the member profile with the searched key. -/
theorem find_profile_of_mem (L : List Profile) (p : Profile) (hmem : p ∈ L)
    (huniq : (L.map Profile.key).Nodup) :
    L.find? (fun q => q.key == p.key) = some p := by
  induction L with
  | nil => cases hmem
  | cons q L ih =>
    simp only [List.map_cons, List.nodup_cons] at huniq
    rcases List.mem_cons.mp hmem with h | h
    · subst h
      rw [List.find?_cons_of_pos _ (by simp)]
    · have hne : (q.key == p.key) = false := by
        by_contra hc
        simp only [Bool.not_eq_false, beq_iff_eq] at hc
        exact huniq.1 (hc ▸ List.mem_map.mpr ⟨p, h, rfl⟩)
      rw [List.find?_cons_of_neg _ (by simp [hne]), ih h huniq.2]

end Wrap

namespace Wrap

/-- C3: for every profile P present in the catalog, select_profile with
P.identifier sets the supervisor's child_class to P.cls and child_config to
P.configR, hence (the heap being untouched) to the very config dict of P,
under the catalog invariant that identifiers are unique. -/
theorem select_profile_match (s : PState) (p : Profile)
    (hmem : p ∈ s.profiles)
    (huniq : (s.profiles.map Profile.key).Nodup) :
    (ProfilesSpawner.select_profile s p.key).child_class = p.cls ∧
    (ProfilesSpawner.select_profile s p.key).child_configR = p.configR ∧
    (ProfilesSpawner.select_profile s p.key).heap = s.heap := by
  rw [ProfilesSpawner.select_profile, find_profile_of_mem s.profiles p hmem huniq]
  exact ⟨rfl, rfl, rfl⟩

/-- Witness for C3 at the sample state: selecting "local" installs the
profile class and config dict. -/
theorem select_profile_match_witness :
    (exP ∈ ex0.profiles ∧ (ex0.profiles.map Profile.key).Nodup) ∧
    ((ProfilesSpawner.select_profile ex0 exP.key).child_class = exP.cls ∧
     (ProfilesSpawner.select_profile ex0 exP.key).child_configR = exP.configR ∧
     (ProfilesSpawner.select_profile ex0 exP.key).heap = ex0.heap) :=
  ⟨⟨by decide, by decide⟩, select_profile_match ex0 exP (by decide) (by decide)⟩

/-- C4: for an identifier matching no catalog entry, select_profile is a
no-op: the entire supervisor state is returned unchanged, and (the
operation being total) no error is raised. -/
theorem select_profile_no_match (s : PState) (ident : String)
    (habs : ∀ p ∈ s.profiles, p.key ≠ ident) :
    ProfilesSpawner.select_profile s ident = s := by
  have hnone : s.profiles.find? (fun p => p.key == ident) = none :=
    List.find?_eq_none.mpr (fun p hp => by simp [habs p hp])
  rw [ProfilesSpawner.select_profile, hnone]

/-- Witness for C4 at the sample state: selecting "nonexistent" changes
nothing. -/
theorem select_profile_no_match_witness :
    (∀ p ∈ ex0.profiles, p.key ≠ "nonexistent") ∧
    ProfilesSpawner.select_profile ex0 "nonexistent" = ex0 :=
  ⟨by decide, select_profile_no_match ex0 "nonexistent" (by decide)⟩

/-- C7: on a supervisor with no child, poll returns, without error, an
already-completed dummy Future whose result is the non-null status code 1,
meaning not running. -/
theorem poll_no_child (s : PState) (h : s.child_spawner = none) :
    WrapSpawner.poll s = yieldVal (some 1) ∧
    WrapSpawner.poll s = LifecycleResult.completed (some 1) ∧
    (some (1 : Int)) ≠ none := by
  rw [WrapSpawner.poll, h]
  exact ⟨rfl, rfl, by simp⟩

/-- Witness for C7 at the sample state. -/
theorem poll_no_child_witness :
    ex0.child_spawner = none ∧
    (WrapSpawner.poll ex0 = yieldVal (some 1) ∧
     WrapSpawner.poll ex0 = LifecycleResult.completed (some 1) ∧
     (some (1 : Int)) ≠ none) :=
  ⟨rfl, poll_no_child ex0 rfl⟩

/-- C8: reading progress with no constructed child raises the explicit
RuntimeError of the source; with a child, the child's progress stream is
returned unchanged. -/
theorem progress_cases (s : PState) :
    (s.child_spawner = none →
      WrapSpawner.progress s = ProgressResult.raised
        "No child spawner yet exists - can not get progress yet") ∧
    (∀ c, s.child_spawner = some c →
      WrapSpawner.progress s = ProgressResult.stream c.id) := by
  constructor
  · intro h
    rw [WrapSpawner.progress, h]
  · intro c h
    rw [WrapSpawner.progress, h]

/-- Witness for C8: at the sample state progress raises, and after
construction it forwards the child stream. -/
theorem progress_cases_witness :
    (ex0.child_spawner = none ∧
      WrapSpawner.progress ex0 = ProgressResult.raised
        "No child spawner yet exists - can not get progress yet") ∧
    (exC.child_spawner = some exChild ∧
      WrapSpawner.progress exC = ProgressResult.stream exChild.id) :=
  ⟨⟨rfl, (progress_cases ex0).1 rfl⟩,
   ⟨by decide, (progress_cases exC).2 exChild (by decide)⟩⟩

/-- C9: options_from_form defaults the profile choice to the first catalog
entry's key when the profile field is absent from the form data, and takes
the first submitted value when a choice is submitted. -/
theorem options_from_form_default_and_choice (s : PState)
    (formdata : List (Key × List String)) (p0 : Profile) (rest : List Profile)
    (hprof : s.profiles = p0 :: rest) :
    (formdata.find? (fun kv => kv.1 == "profile") = none →
      ProfilesSpawner.options_from_form s formdata =
        some [("profile", p0.key)]) ∧
    (∀ k v vs, formdata.find? (fun kv => kv.1 == "profile") = some (k, v :: vs) →
      ProfilesSpawner.options_from_form s formdata = some [("profile", v)]) := by
  constructor
  · intro h
    rw [ProfilesSpawner.options_from_form, hprof, h]
    simp
  · intro k v vs h
    rw [ProfilesSpawner.options_from_form, hprof, h]
    simp

/-- Witness for C9 at the sample state: empty form data falls back to
"local"; a submitted choice "docker" is taken. -/
theorem options_from_form_default_and_choice_witness :
    (ex0.profiles = exP :: [] ∧
     ([] : List (Key × List String)).find? (fun kv => kv.1 == "profile") = none ∧
     [("profile", ["docker"])].find? (fun kv => kv.1 == "profile") =
       some ("profile", ["docker"])) ∧
    ProfilesSpawner.options_from_form ex0 [] = some [("profile", "local")] ∧
    ProfilesSpawner.options_from_form ex0 [("profile", ["docker"])] =
      some [("profile", "docker")] := by
  refine ⟨⟨rfl, rfl, by decide⟩, ?_, ?_⟩
  · exact (options_from_form_default_and_choice ex0 [] exP [] rfl).1 rfl
  · exact (options_from_form_default_and_choice ex0 [("profile", ["docker"])]
      exP [] rfl).2 "profile" "docker" [] (by decide)

/-- C10: when the form data maps the profile field to an empty list of
values, options_from_form raises (IndexError on the empty list, modelled as
none) instead of falling back to the first catalog entry's key. -/
theorem options_from_form_empty_values (s : PState)
    (formdata : List (Key × List String)) (p0 : Profile) (rest : List Profile)
    (hprof : s.profiles = p0 :: rest) (k : Key)
    (hfound : formdata.find? (fun kv => kv.1 == "profile") = some (k, [])) :
    ProfilesSpawner.options_from_form s formdata = none := by
  rw [ProfilesSpawner.options_from_form, hprof, hfound]
  simp

/-- Witness for C10 at the sample state: a submitted profile field with an
empty value list makes options_from_form fail. -/
theorem options_from_form_empty_values_witness :
    (ex0.profiles = exP :: [] ∧
     [("profile", ([] : List String))].find? (fun kv => kv.1 == "profile") =
       some ("profile", [])) ∧
    ProfilesSpawner.options_from_form ex0 [("profile", [])] = none :=
  ⟨⟨rfl, by decide⟩,
   options_from_form_empty_values ex0 [("profile", [])] exP [] rfl "profile"
     (by decide)⟩

end Wrap

namespace Wrap

/-- C5: on first construction (no child existed), the trace of calls into
the new instance is exactly: construction, its clear_state, then its
load_state(child_state) if and only if the cached child_state dict is
non-empty, then the trait linking; when an instance already exists, no
child call is made at all. -/
theorem construct_child_clear_then_load (s : PState) (initSt : DictC) :
    (s.child_spawner = none →
      (WrapSpawner.construct_child s initSt).2.1 =
        [Ev.newChild s.child_class s.nextChildId,
         Ev.childClear s.nextChildId] ++
        (if (heapRead s.heap s.child_stateR).isEmpty then []
         else [Ev.childLoad s.nextChildId (heapRead s.heap s.child_stateR)]) ++
        [Ev.linkTraits s.nextChildId]) ∧
    (s.child_spawner ≠ none →
      (WrapSpawner.construct_child s initSt).2.1 = []) := by
  constructor
  · intro h
    rw [WrapSpawner.construct_child, h]
  · intro h
    match hc : s.child_spawner with
    | none => exact absurd hc h
    | some c => rw [WrapSpawner.construct_child, hc]

/-- Witness for C5: at the sample state (empty cached child_state) the
trace is construction, clear_state, trait linking, with no load_state. -/
theorem construct_child_clear_then_load_witness :
    ex0.child_spawner = none ∧
    (WrapSpawner.construct_child ex0 []).2.1 =
      [Ev.newChild "LocalProcessSpawner" 0, Ev.childClear 0,
       Ev.linkTraits 0] := by
  refine ⟨rfl, ?_⟩
  rw [(construct_child_clear_then_load ex0 []).1 rfl]
  decide

end Wrap

namespace Wrap

/-- select_profile changes at most child_class and child_configR; every
other field is preserved. -/
theorem select_profile_fields (s : PState) (t : String) :
    (ProfilesSpawner.select_profile s t).heap = s.heap ∧
    (ProfilesSpawner.select_profile s t).profiles = s.profiles ∧
    (ProfilesSpawner.select_profile s t).child_stateR = s.child_stateR ∧
    (ProfilesSpawner.select_profile s t).child_spawner = s.child_spawner ∧
    (ProfilesSpawner.select_profile s t).child_profile = s.child_profile ∧
    (ProfilesSpawner.select_profile s t).user_options = s.user_options ∧
    (ProfilesSpawner.select_profile s t).nextChildId = s.nextChildId := by
  cases hf : s.profiles.find? (fun p => p.key == t) <;>
    simp [ProfilesSpawner.select_profile, hf]

/-- WrapSpawner.construct_child changes at most child_spawner and
nextChildId; in particular it never writes the heap or the catalog. -/
theorem wrap_construct_fields (s : PState) (i : DictC) :
    (WrapSpawner.construct_child s i).1.heap = s.heap ∧
    (WrapSpawner.construct_child s i).1.profiles = s.profiles ∧
    (WrapSpawner.construct_child s i).1.child_class = s.child_class ∧
    (WrapSpawner.construct_child s i).1.child_configR = s.child_configR ∧
    (WrapSpawner.construct_child s i).1.child_stateR = s.child_stateR ∧
    (WrapSpawner.construct_child s i).1.child_profile = s.child_profile ∧
    (WrapSpawner.construct_child s i).1.user_options = s.user_options := by
  cases hc : s.child_spawner <;> simp [WrapSpawner.construct_child, hc]

/-- WrapSpawner.construct_child returns exactly the instance it leaves in
child_spawner, and that instance exists. -/
theorem wrap_construct_spawner_some (s : PState) (i : DictC) :
    (WrapSpawner.construct_child s i).1.child_spawner =
      (WrapSpawner.construct_child s i).2.2 ∧
    (WrapSpawner.construct_child s i).2.2 ≠ none := by
  cases hc : s.child_spawner <;> simp [WrapSpawner.construct_child, hc]

/-- With an existing child, WrapSpawner.construct_child is the fully
trivial call: unchanged state, no child calls, the existing instance. -/
theorem wrap_construct_of_some (s : PState) (i : DictC) (c : Child)
    (h : s.child_spawner = some c) :
    WrapSpawner.construct_child s i = (s, [], some c) := by
  rw [WrapSpawner.construct_child, h]

/-- With an existing child, ProfilesSpawner.construct_child keeps that very
instance in child_spawner and makes no call into it. -/
theorem profiles_construct_of_some (t : PState) (i : DictC) (c : Child)
    (h : t.child_spawner = some c) :
    (ProfilesSpawner.construct_child t i).1.child_spawner = some c ∧
    (ProfilesSpawner.construct_child t i).2.1 = [] := by
  have hsel : (ProfilesSpawner.select_profile
      { t with child_profile := getProfileOpt t.user_options }
      (getProfileOpt t.user_options)).child_spawner = some c := by
    rw [(select_profile_fields _ _).2.2.2.1]
    exact h
  rw [ProfilesSpawner.construct_child]
  simp only
  rw [wrap_construct_of_some _ i _ hsel]
  exact ⟨hsel, rfl⟩

/-- ProfilesSpawner.construct_child always leaves an instance in place. -/
theorem profiles_construct_spawner_some (t : PState) (i : DictC) :
    (ProfilesSpawner.construct_child t i).1.child_spawner ≠ none := by
  rw [ProfilesSpawner.construct_child]
  simp only
  rw [(wrap_construct_spawner_some _ i).1]
  exact (wrap_construct_spawner_some _ i).2

/-- C2 counterexample: at the sample state, ProfilesSpawner.construct_child
does construct and store a child instance, yet the call returns None (the
method body has no return statement), not the existing instance; so the
claim that the construct operation returns the Backend instance fails for
ProfilesSpawner. -/
theorem profiles_construct_returns_none_cex :
    (ProfilesSpawner.construct_child ex0 []).2.2 = none ∧
    (ProfilesSpawner.construct_child ex0 []).1.child_spawner = some exChild := by
  constructor
  · rfl
  · decide

/-- C2 amended: construction is idempotent.  For WrapSpawner, the call
returns exactly the held instance, a second call changes nothing, makes no
clear/load call into the child, and returns the same existing instance.
For ProfilesSpawner, a second call keeps the identical instance in place
and makes no call into the child, but the method returns None (its body
has no return statement), not the instance. -/
theorem construct_child_idempotent (s : PState) (i1 i2 : DictC) :
    ((WrapSpawner.construct_child s i1).2.2 =
      (WrapSpawner.construct_child s i1).1.child_spawner) ∧
    ((WrapSpawner.construct_child s i1).2.2 ≠ none) ∧
    (WrapSpawner.construct_child (WrapSpawner.construct_child s i1).1 i2 =
      ((WrapSpawner.construct_child s i1).1, [],
       (WrapSpawner.construct_child s i1).1.child_spawner)) ∧
    ((ProfilesSpawner.construct_child
        (ProfilesSpawner.construct_child s i1).1 i2).1.child_spawner =
      (ProfilesSpawner.construct_child s i1).1.child_spawner) ∧
    ((ProfilesSpawner.construct_child
        (ProfilesSpawner.construct_child s i1).1 i2).2.1 = []) ∧
    ((ProfilesSpawner.construct_child s i1).2.2 = none) := by
  have hW := wrap_construct_spawner_some s i1
  obtain ⟨c, hc⟩ : ∃ c, (WrapSpawner.construct_child s i1).1.child_spawner =
      some c := by
    cases hcc : (WrapSpawner.construct_child s i1).2.2 with
    | none => exact absurd hcc hW.2
    | some c => exact ⟨c, hW.1.trans hcc⟩
  obtain ⟨d, hd⟩ : ∃ d, (ProfilesSpawner.construct_child s i1).1.child_spawner =
      some d := by
    cases hdd : (ProfilesSpawner.construct_child s i1).1.child_spawner with
    | none => exact absurd hdd (profiles_construct_spawner_some s i1)
    | some d => exact ⟨d, rfl⟩
  refine ⟨hW.1.symm, hW.2, ?_, ?_, ?_, rfl⟩
  · rw [wrap_construct_of_some _ i2 c hc, hc]
  · rw [(profiles_construct_of_some _ i2 d hd).1, hd]
  · exact (profiles_construct_of_some _ i2 d hd).2

end Wrap

namespace Wrap

/-- Witness for the amended C2 at the sample state. -/
theorem construct_child_idempotent_witness :
    ((WrapSpawner.construct_child ex0 []).2.2 =
      (WrapSpawner.construct_child ex0 []).1.child_spawner) ∧
    ((WrapSpawner.construct_child ex0 []).2.2 ≠ none) ∧
    (WrapSpawner.construct_child (WrapSpawner.construct_child ex0 []).1 [] =
      ((WrapSpawner.construct_child ex0 []).1, [],
       (WrapSpawner.construct_child ex0 []).1.child_spawner)) ∧
    ((ProfilesSpawner.construct_child
        (ProfilesSpawner.construct_child ex0 []).1 []).1.child_spawner =
      (ProfilesSpawner.construct_child ex0 []).1.child_spawner) ∧
    ((ProfilesSpawner.construct_child
        (ProfilesSpawner.construct_child ex0 []).1 []).2.1 = []) ∧
    ((ProfilesSpawner.construct_child ex0 []).2.2 = none) :=
  construct_child_idempotent ex0 [] []

end Wrap

namespace Wrap

/-- ProfilesSpawner.construct_child never writes the heap, the catalog, the
child_state reference or the user options. -/
theorem profiles_construct_fields (s : PState) (i : DictC) :
    (ProfilesSpawner.construct_child s i).1.heap = s.heap ∧
    (ProfilesSpawner.construct_child s i).1.profiles = s.profiles ∧
    (ProfilesSpawner.construct_child s i).1.child_stateR = s.child_stateR ∧
    (ProfilesSpawner.construct_child s i).1.user_options = s.user_options := by
  rw [ProfilesSpawner.construct_child]
  simp only
  refine ⟨?_, ?_, ?_, ?_⟩
  · rw [(wrap_construct_fields _ _).1, (select_profile_fields _ _).1]
  · rw [(wrap_construct_fields _ _).2.1, (select_profile_fields _ _).2.1]
  · rw [(wrap_construct_fields _ _).2.2.2.2.1, (select_profile_fields _ _).2.2.1]
  · rw [(wrap_construct_fields _ _).2.2.2.2.2.2,
      (select_profile_fields _ _).2.2.2.2.2.1]

/-- ProfilesSpawner.load_child_class changes at most child_profile,
child_class and child_configR. -/
theorem load_child_class_fields (s : PState) (st : DictC) :
    (ProfilesSpawner.load_child_class s st).heap = s.heap ∧
    (ProfilesSpawner.load_child_class s st).profiles = s.profiles ∧
    (ProfilesSpawner.load_child_class s st).child_stateR = s.child_stateR ∧
    (ProfilesSpawner.load_child_class s st).child_spawner = s.child_spawner ∧
    (ProfilesSpawner.load_child_class s st).user_options = s.user_options := by
  rw [ProfilesSpawner.load_child_class]
  simp only
  exact ⟨(select_profile_fields _ _).1, (select_profile_fields _ _).2.1,
    (select_profile_fields _ _).2.2.1, (select_profile_fields _ _).2.2.2.1,
    (select_profile_fields _ _).2.2.2.2.2.1⟩

/-- get_state keeps the catalog and every existing dict object intact (it
only appends the freshly captured child state as a new object). -/
theorem get_state_preserves (s : PState) (r : Nat) (hr : r < s.heap.length) :
    (ProfilesSpawner.get_state s).1.profiles = s.profiles ∧
    heapRead (ProfilesSpawner.get_state s).1.heap r = heapRead s.heap r := by
  cases hc : s.child_spawner with
  | none =>
    constructor <;> simp [ProfilesSpawner.get_state, WrapSpawner.get_state, hc]
  | some c =>
    have hh : (ProfilesSpawner.get_state s).1.heap =
        s.heap ++ [Child.get_state c] := by
      simp [ProfilesSpawner.get_state, WrapSpawner.get_state, hc, heapAlloc]
    constructor
    · simp [ProfilesSpawner.get_state, WrapSpawner.get_state, hc, heapAlloc]
    · rw [hh]
      exact heapRead_append _ _ _ hr

/-- clear_state keeps the catalog and every existing dict object intact (it
only appends the two fresh empty dicts). -/
theorem clear_state_preserves (s : PState) (r : Nat) (hr : r < s.heap.length) :
    (ProfilesSpawner.clear_state s).1.profiles = s.profiles ∧
    heapRead (ProfilesSpawner.clear_state s).1.heap r = heapRead s.heap r := by
  have hh : (ProfilesSpawner.clear_state s).1.heap =
      (s.heap ++ [[]]) ++ [[]] := by
    cases hc : s.child_spawner <;>
      simp [ProfilesSpawner.clear_state, WrapSpawner.clear_state, hc, heapAlloc]
  constructor
  · cases hc : s.child_spawner <;>
      simp [ProfilesSpawner.clear_state, WrapSpawner.clear_state, hc, heapAlloc]
  · rw [hh, heapRead_append _ _ _ (by simp; omega), heapRead_append _ _ _ hr]

/-- load_state never modifies the catalog list itself (though it may write
through the child_config reference, which can point into the catalog). -/
theorem load_state_profiles (s : PState) (st i : DictC) :
    (ProfilesSpawner.load_state s st i).1.profiles = s.profiles := by
  rw [ProfilesSpawner.load_state]
  simp only
  split
  · rw [(profiles_construct_fields _ _).2.1]
    exact (load_child_class_fields s st).2.1
  · rw [(profiles_construct_fields _ _).2.1]
    exact (load_child_class_fields s st).2.1

end Wrap

namespace Wrap

/-- C6 counterexample: at the well-formed state exCat, whose catalog entry
"local" owns the config dict at heap cell 0 with contents a = 1, one
load_state call (with a persisted mapping naming profile "local" and
carrying child_conf overrides b = 2 in a separate dict) mutates that
catalog entry's config dict in place to a = 1, b = 2: select_profile
aliases child_config to the catalog dict and the subsequent update writes
through the alias.  The profiles list itself is unchanged, so the mutation
is visible through the unchanged entry. -/
theorem load_state_mutates_catalog_cex :
    WF exCat ∧
    exCat.profiles.map Profile.configR = [0] ∧
    heapRead exCat.heap 0 = [("a", Val.int 1)] ∧
    heapRead (ProfilesSpawner.load_state exCat exCatSt []).1.heap 0 =
      [("a", Val.int 1), ("b", Val.int 2)] ∧
    (ProfilesSpawner.load_state exCat exCatSt []).1.profiles =
      exCat.profiles := by
  refine ⟨by decide, by decide, by decide, by decide, by decide⟩

/-- C6 amended: no operation modifies the profiles catalog list or replaces
an entry; select_profile and both construct_child operations leave the
whole heap of dict objects untouched; get_state and clear_state leave every
existing dict object (hence every catalog entry's config dict) untouched;
load_state still preserves the catalog list, but it may mutate the dict
object behind the selected catalog entry's config in place (the
counterexample), because select_profile installs that dict by reference as
child_config and load_state then merges the persisted overrides into it. -/
theorem catalog_preservation (s : PState) (t : String) (st i : DictC)
    (r : Nat) (hr : r < s.heap.length) :
    ((ProfilesSpawner.select_profile s t).profiles = s.profiles ∧
     (ProfilesSpawner.select_profile s t).heap = s.heap) ∧
    ((WrapSpawner.construct_child s i).1.profiles = s.profiles ∧
     (WrapSpawner.construct_child s i).1.heap = s.heap) ∧
    ((ProfilesSpawner.construct_child s i).1.profiles = s.profiles ∧
     (ProfilesSpawner.construct_child s i).1.heap = s.heap) ∧
    ((ProfilesSpawner.get_state s).1.profiles = s.profiles ∧
     heapRead (ProfilesSpawner.get_state s).1.heap r = heapRead s.heap r) ∧
    ((ProfilesSpawner.clear_state s).1.profiles = s.profiles ∧
     heapRead (ProfilesSpawner.clear_state s).1.heap r = heapRead s.heap r) ∧
    (ProfilesSpawner.load_state s st i).1.profiles = s.profiles :=
  ⟨⟨(select_profile_fields s t).2.1, (select_profile_fields s t).1⟩,
   ⟨(wrap_construct_fields s i).2.1, (wrap_construct_fields s i).1⟩,
   ⟨(profiles_construct_fields s i).2.1, (profiles_construct_fields s i).1⟩,
   get_state_preserves s r hr,
   clear_state_preserves s r hr,
   load_state_profiles s st i⟩

/-- Witness for the amended C6 at the sample state, reading heap cell 2
(the catalog entry's config dict). -/
theorem catalog_preservation_witness :
    (2 < ex0.heap.length) ∧
    (((ProfilesSpawner.select_profile ex0 "local").profiles = ex0.profiles ∧
      (ProfilesSpawner.select_profile ex0 "local").heap = ex0.heap) ∧
     ((WrapSpawner.construct_child ex0 []).1.profiles = ex0.profiles ∧
      (WrapSpawner.construct_child ex0 []).1.heap = ex0.heap) ∧
     ((ProfilesSpawner.construct_child ex0 []).1.profiles = ex0.profiles ∧
      (ProfilesSpawner.construct_child ex0 []).1.heap = ex0.heap) ∧
     ((ProfilesSpawner.get_state ex0).1.profiles = ex0.profiles ∧
      heapRead (ProfilesSpawner.get_state ex0).1.heap 2 =
        heapRead ex0.heap 2) ∧
     ((ProfilesSpawner.clear_state ex0).1.profiles = ex0.profiles ∧
      heapRead (ProfilesSpawner.clear_state ex0).1.heap 2 =
        heapRead ex0.heap 2) ∧
     (ProfilesSpawner.load_state ex0 [] []).1.profiles = ex0.profiles) :=
  ⟨by decide, catalog_preservation ex0 "local" [] [] 2 (by decide)⟩

end Wrap

namespace Wrap

/-- select_profile resolves child_class and child_configR through the
linear catalog search. -/
theorem select_profile_class_configR (s : PState) (t : String) :
    (ProfilesSpawner.select_profile s t).child_class =
      (match s.profiles.find? (fun p => p.key == t) with
       | some p => p.cls
       | none => s.child_class) ∧
    (ProfilesSpawner.select_profile s t).child_configR =
      (match s.profiles.find? (fun p => p.key == t) with
       | some p => p.configR
       | none => s.child_configR) := by
  cases hf : s.profiles.find? (fun p => p.key == t) <;>
    simp [ProfilesSpawner.select_profile, hf]

/-- ProfilesSpawner.construct_child records the submitted profile and
resolves class and config through select_profile. -/
theorem profiles_construct_resolution (s : PState) (i : DictC) :
    (ProfilesSpawner.construct_child s i).1.child_profile =
      getProfileOpt s.user_options ∧
    (ProfilesSpawner.construct_child s i).1.child_class =
      (ProfilesSpawner.select_profile
        { s with child_profile := getProfileOpt s.user_options }
        (getProfileOpt s.user_options)).child_class ∧
    (ProfilesSpawner.construct_child s i).1.child_configR =
      (ProfilesSpawner.select_profile
        { s with child_profile := getProfileOpt s.user_options }
        (getProfileOpt s.user_options)).child_configR := by
  rw [ProfilesSpawner.construct_child]
  simp only
  refine ⟨?_, ?_, ?_⟩
  · rw [(wrap_construct_fields _ _).2.2.2.2.2.1,
      (select_profile_fields _ _).2.2.2.2.1]
  · rw [(wrap_construct_fields _ _).2.2.1]
  · rw [(wrap_construct_fields _ _).2.2.2.1]

/-- get_state on a supervisor holding a child: the heap grows by the
captured child state, child_stateR moves to it, and the returned mapping
is explicit. -/
theorem get_state_of_some (s : PState) (c : Child)
    (h : s.child_spawner = some c) :
    ProfilesSpawner.get_state s =
      ({ s with
          heap := s.heap ++ [Child.get_state c],
          child_stateR := s.heap.length },
       [("child_conf", Val.ref s.child_configR),
        ("child_state", Val.ref s.heap.length),
        ("profile", Val.str s.child_profile)]) := by
  simp [ProfilesSpawner.get_state, WrapSpawner.get_state, h, heapAlloc, dictSet]

/-- load_child_class is select_profile after recording the persisted
profile key. -/
theorem load_child_class_eq (s : PState) (st : DictC) :
    ProfilesSpawner.load_child_class s st =
      ProfilesSpawner.select_profile
        { s with child_profile := getProfileOpt st } (getProfileOpt st) := rfl

/-- load_state unfolded, when the mapping carries dict references for both
child_conf and child_state (as every mapping produced by get_state on a
supervisor holding a child does). -/
theorem load_state_of_refs (s : PState) (st i : DictC) (rc rs : Nat)
    (hc : dictGet st "child_conf" = some (Val.ref rc))
    (hs : dictGet st "child_state" = some (Val.ref rs)) :
    ProfilesSpawner.load_state s st i =
      ((ProfilesSpawner.construct_child
          { ProfilesSpawner.load_child_class s st with
            heap := heapWrite (ProfilesSpawner.load_child_class s st).heap
              (ProfilesSpawner.load_child_class s st).child_configR
              (dictUpdate
                (heapRead (ProfilesSpawner.load_child_class s st).heap
                  (ProfilesSpawner.load_child_class s st).child_configR)
                (heapRead (ProfilesSpawner.load_child_class s st).heap rc)),
            child_stateR := rs } i).1,
       (ProfilesSpawner.construct_child
          { ProfilesSpawner.load_child_class s st with
            heap := heapWrite (ProfilesSpawner.load_child_class s st).heap
              (ProfilesSpawner.load_child_class s st).child_configR
              (dictUpdate
                (heapRead (ProfilesSpawner.load_child_class s st).heap
                  (ProfilesSpawner.load_child_class s st).child_configR)
                (heapRead (ProfilesSpawner.load_child_class s st).heap rc)),
            child_stateR := rs } i).2.1) := by
  rw [ProfilesSpawner.load_state]
  simp only [hc, hs]

theorem sp_heap (s : PState) (t : String) :
    (ProfilesSpawner.select_profile s t).heap = s.heap :=
  (select_profile_fields s t).1

theorem sp_profiles (s : PState) (t : String) :
    (ProfilesSpawner.select_profile s t).profiles = s.profiles :=
  (select_profile_fields s t).2.1

theorem sp_user_options (s : PState) (t : String) :
    (ProfilesSpawner.select_profile s t).user_options = s.user_options :=
  (select_profile_fields s t).2.2.2.2.2.1

theorem sp_class (s : PState) (t : String) :
    (ProfilesSpawner.select_profile s t).child_class =
      (match s.profiles.find? (fun p => p.key == t) with
       | some p => p.cls
       | none => s.child_class) :=
  (select_profile_class_configR s t).1

theorem sp_configR (s : PState) (t : String) :
    (ProfilesSpawner.select_profile s t).child_configR =
      (match s.profiles.find? (fun p => p.key == t) with
       | some p => p.configR
       | none => s.child_configR) :=
  (select_profile_class_configR s t).2

theorem pc_heap (s : PState) (i : DictC) :
    (ProfilesSpawner.construct_child s i).1.heap = s.heap :=
  (profiles_construct_fields s i).1

theorem pc_profiles (s : PState) (i : DictC) :
    (ProfilesSpawner.construct_child s i).1.profiles = s.profiles :=
  (profiles_construct_fields s i).2.1

theorem pc_user_options (s : PState) (i : DictC) :
    (ProfilesSpawner.construct_child s i).1.user_options = s.user_options :=
  (profiles_construct_fields s i).2.2.2

theorem pc_child_profile (s : PState) (i : DictC) :
    (ProfilesSpawner.construct_child s i).1.child_profile =
      getProfileOpt s.user_options :=
  (profiles_construct_resolution s i).1

theorem pc_class (s : PState) (i : DictC) :
    (ProfilesSpawner.construct_child s i).1.child_class =
      (match s.profiles.find?
          (fun p => p.key == getProfileOpt s.user_options) with
       | some p => p.cls
       | none => s.child_class) :=
  ((profiles_construct_resolution s i).2.1).trans
    ((select_profile_class_configR _ _).1)

theorem pc_configR (s : PState) (i : DictC) :
    (ProfilesSpawner.construct_child s i).1.child_configR =
      (match s.profiles.find?
          (fun p => p.key == getProfileOpt s.user_options) with
       | some p => p.configR
       | none => s.child_configR) :=
  ((profiles_construct_resolution s i).2.2).trans
    ((select_profile_class_configR _ _).2)

theorem dictGet_g_conf (a b : Val) (t : String) :
    dictGet [("child_conf", a), ("child_state", b), ("profile", Val.str t)]
      "child_conf" = some a := rfl

theorem dictGet_g_state (a b : Val) (t : String) :
    dictGet [("child_conf", a), ("child_state", b), ("profile", Val.str t)]
      "child_state" = some b := rfl

theorem getProfileOpt_g (a b : Val) (t : String) :
    getProfileOpt
      [("child_conf", a), ("child_state", b), ("profile", Val.str t)] = t := rfl

/-- C1: the persistence round trip.  For any well-formed supervisor, after
constructing the child from the submitted user options, feeding the
supervisor its own get_state mapping back through load_state leaves the
selected profile identifier (child_profile), the backend class
(child_class) and the contents of the backend configuration dict
(child_config) identical to those of the original supervisor. -/
theorem load_get_roundtrip (s0 : PState) (i1 i2 : DictC) (hwf : WF s0) :
    (roundTrip s0 i1 i2).2.child_profile =
      (roundTrip s0 i1 i2).1.child_profile ∧
    (roundTrip s0 i1 i2).2.child_class =
      (roundTrip s0 i1 i2).1.child_class ∧
    heapRead (roundTrip s0 i1 i2).2.heap
        (roundTrip s0 i1 i2).2.child_configR =
      heapRead (roundTrip s0 i1 i2).1.heap
        (roundTrip s0 i1 i2).1.child_configR := by
  obtain ⟨hwf1, hwf2, hwf3, hwf4⟩ := hwf
  obtain ⟨c, hc⟩ : ∃ c,
      (ProfilesSpawner.construct_child s0 i1).1.child_spawner = some c := by
    cases hcc : (ProfilesSpawner.construct_child s0 i1).1.child_spawner with
    | none => exact absurd hcc (profiles_construct_spawner_some s0 i1)
    | some c => exact ⟨c, rfl⟩
  rw [roundTrip]
  simp only
  rw [get_state_of_some _ c hc]
  simp only
  rw [load_state_of_refs _ _ i2 _ _ (dictGet_g_conf _ _ _) (dictGet_g_state _ _ _)]
  simp only
  cases hf : s0.profiles.find?
      (fun p => p.key == getProfileOpt s0.user_options) with
  | some p =>
    have hpmem : p ∈ s0.profiles := List.mem_of_find?_eq_some hf
    have hbound : p.configR < s0.heap.length := hwf4 p hpmem
    refine ⟨?_, ?_, ?_⟩
    · simp only [pc_child_profile, load_child_class_eq, sp_user_options,
        pc_user_options]
    · simp only [pc_class, load_child_class_eq, sp_profiles, pc_profiles,
        sp_user_options, pc_user_options, sp_class, sp_configR,
        getProfileOpt_g, pc_child_profile, hf]
    · simp only [pc_heap, pc_configR, load_child_class_eq, sp_heap,
        sp_profiles, sp_configR, sp_class, pc_profiles, pc_user_options,
        sp_user_options, getProfileOpt_g, pc_child_profile, hf]
      rw [heapRead_append _ _ _ hbound]
      rw [dictUpdate_self _ (hwf3 _ (heapRead_mem _ _ hbound))]
      rw [heapRead_write_self _ _ _ (by simp [List.length_append]; omega)]
  | none =>
    refine ⟨?_, ?_, ?_⟩
    · simp only [pc_child_profile, load_child_class_eq, sp_user_options,
        pc_user_options]
    · simp only [pc_class, load_child_class_eq, sp_profiles, pc_profiles,
        sp_user_options, pc_user_options, sp_class, sp_configR,
        getProfileOpt_g, pc_child_profile, hf]
    · simp only [pc_heap, pc_configR, load_child_class_eq, sp_heap,
        sp_profiles, sp_configR, sp_class, pc_profiles, pc_user_options,
        sp_user_options, getProfileOpt_g, pc_child_profile, hf]
      rw [heapRead_append _ _ _ hwf1]
      rw [dictUpdate_self _ (hwf3 _ (heapRead_mem _ _ hwf1))]
      rw [heapRead_write_self _ _ _ (by simp [List.length_append]; omega)]

/-- Witness for C1 at the sample state: the round trip preserves profile,
class and config contents. -/
theorem load_get_roundtrip_witness :
    WF ex0 ∧
    ((roundTrip ex0 [] []).2.child_profile =
       (roundTrip ex0 [] []).1.child_profile ∧
     (roundTrip ex0 [] []).2.child_class =
       (roundTrip ex0 [] []).1.child_class ∧
     heapRead (roundTrip ex0 [] []).2.heap
         (roundTrip ex0 [] []).2.child_configR =
       heapRead (roundTrip ex0 [] []).1.heap
         (roundTrip ex0 [] []).1.child_configR) :=
  ⟨by decide, load_get_roundtrip ex0 [] [] (by decide)⟩

end Wrap
